import Mathlib

/-!
Verification of the voice-assistant conversation controller
(`main.py` class `VoiceAgent`, together with the collaborators
`TextToSpeech` (`text_to_speech.py`) and `AgentBrain`
(`agent_brain.py`)).

The Python code is embedded shallowly: every controller method becomes a
Lean function from an explicit state to a new state together with a trace
of externally visible effects (calls on the speech-to-text service, the
text-to-speech service, Qt timers and signals, the status sink and the
planner).  Python strings are Lean `String`s; Python substring tests,
`str.lower` and `str.strip` are given explicit executable models.
-/

/-! ## Python string primitives -/

/-- Model of CPython `str.lower` restricted to the ASCII range: the letters
`A`–`Z` map to their lowercase forms, every other character (including the
Devanagari phrases used by the wake/exit word lists) is unchanged. -/
def pyLowerChar (c : Char) : Char :=
  if 'A' ≤ c ∧ c ≤ 'Z' then Char.ofNat (c.toNat + 32) else c

/-- Model of `text.lower()` on a whole string. -/
def pyLower (s : String) : String :=
  String.mk (s.toList.map pyLowerChar)

/-- Test whether `needle` occurs at the start of `hay` (character lists). -/
def strHasPre : List Char → List Char → Bool
  | [], _ => true
  | _ :: _, [] => false
  | a :: as, b :: bs => a == b && strHasPre as bs

/-- Model of the Python substring test `needle in hay`: `needle` occurs
contiguously somewhere in `hay`. -/
def subStr (needle : List Char) : List Char → Bool
  | [] => strHasPre needle []
  | c :: t => strHasPre needle (c :: t) || subStr needle t

/-- Model of CPython `str.isspace` membership for the whitespace characters
that `str.strip` removes (ASCII whitespace). -/
def pyIsSpace (c : Char) : Bool :=
  c == ' ' || c == '\t' || c == '\n' || c == '\x0d' || c == '\x0b' || c == '\x0c'

/-- Model of `text.strip()`: remove leading and trailing whitespace. -/
def pyStrip (s : String) : String :=
  String.mk (((s.toList.dropWhile pyIsSpace).reverse.dropWhile pyIsSpace).reverse)

/-! ## Wake-word and exit-keyword policy (`main.py` lines 38, 51-54, 151-165) -/

namespace VoiceAgent

/-- The list `self.wake_words` from `VoiceAgent.__init__`. -/
def wake_words : List String := ["surya", "सूर्या", "सूर्य"]

/-- The list `self.exit_keywords` from `VoiceAgent.__init__`. -/
def exit_keywords : List String :=
  ["bye", "goodbye", "exit", "quit", "shutdown", "shut down",
   "close", "stop", "बाय", "गुडबाय", "बंद करो", "शट डाउन"]

/-- Embedding of `VoiceAgent.check_wake_word`: lowercase the text once, then test each
wake word for substring containment. -/
def check_wake_word (text : String) : Bool :=
  let text_lower := pyLower text
  wake_words.any (fun w => subStr w.toList text_lower.toList)

/-- Embedding of `VoiceAgent.check_exit_keywords`: lowercase the text once, then test
each exit keyword for substring containment. -/
def check_exit_keywords (text : String) : Bool :=
  let text_lower := pyLower text
  exit_keywords.any (fun w => subStr w.toList text_lower.toList)

end VoiceAgent

/-! ## `TextToSpeech` (text_to_speech.py) -/

namespace TextToSpeech

/-- The methods defined by `class TextToSpeech` (text_to_speech.py).
Python attribute lookup on a `TextToSpeech` instance succeeds for exactly
these names; any other name raises `AttributeError`. -/
def methodNames : List String :=
  ["__init__", "_start_worker", "speak", "stop_speaking",
   "set_speaking_callback", "set_rate", "set_volume", "shutdown"]

/-- Embedding of `TextToSpeech.speak`: enqueue the text when `text.strip()` is truthy
(non-empty after stripping whitespace), otherwise do nothing. -/
def speak (text : String) (speech_queue : List String) : List String :=
  if pyStrip text ≠ "" then speech_queue ++ [text] else speech_queue

/-- Externally visible actions of the TTS worker loop
(`TextToSpeech._start_worker`). -/
inductive WorkerEvent
  | speakingCallback (b : Bool)
  | playAudio (text : String)
deriving DecidableEq, Repr

/-- Events the worker loop produces while draining a queue: for each queued
text it fires `speaking_callback(True)`, plays the audio via the `say`
subprocess, then fires `speaking_callback(False)`. -/
def workerEvents : List String → List WorkerEvent
  | [] => []
  | t :: ts =>
      .speakingCallback true :: .playAudio t :: .speakingCallback false ::
        workerEvents ts

end TextToSpeech

/-! ## `AgentBrain` (agent_brain.py) -/

namespace AgentBrain

/-- A role-tagged message of the conversation history. -/
structure Msg where
  role : String
  content : String
deriving DecidableEq, Repr

/-- One tool call requested by the model (id, function name, raw JSON
argument string). -/
structure ToolCall where
  id : String
  name : String
  argumentsJson : String
deriving DecidableEq, Repr

/-- The assistant message returned by `client.chat.completions.create`. -/
structure ChatMsg where
  content : String
  tool_calls : List ToolCall
deriving DecidableEq, Repr

/-- Oracles for the external collaborators used inside
`AgentBrain.process_input`.  `firstCall`/`secondCall` are the two OpenAI
API round-trips and `jsonLoads` is `json.loads` on the argument text of a tool call
string; each may raise a Python exception, modelled as `Except.error`.
`_execute_tool` (agent_brain.py lines 120-381) ends in a catch-all
`except` returning an error dict, so `execTool` is total. -/
structure LLMApi where
  firstCall : List Msg → Except String ChatMsg
  secondCall : List Msg → Except String String
  jsonLoads : String → Except String String
  execTool : String → String → String

/-- The mutable state of an `AgentBrain` instance that `process_input`
touches. -/
structure BrainState where
  conversation_history : List Msg
  max_history : Nat
deriving DecidableEq, Repr

/-- Python `l[-k:]` on a list: the last `k` elements for `k > 0`, and the
whole list for `k = 0` (since `l[-0:] = l[0:]`). -/
def pySliceLast (l : List Msg) (k : Nat) : List Msg :=
  if k = 0 then l else l.drop (l.length - k)

/-- The history-truncation step of `process_input` (lines 394-397):
when the history exceeds `max_history`, keep the first message plus the
last `max_history - 1` messages. -/
def truncateHistory (hist : List Msg) (max_history : Nat) : List Msg :=
  if hist.length > max_history then
    hist.take 1 ++ pySliceLast hist (max_history - 1)
  else hist

/-- The fixed apology returned by the `except` clause of `process_input`
(line 459). -/
def apologyReply : String :=
  "I apologize, but I encountered an error processing your request. Please try again."

/-- The tool-execution loop of `process_input` (lines 416-431): for each
tool call, `json.loads` its arguments (which may raise), execute the tool,
and append the tool result message to the history.  `Except.error`
carries the history as mutated so far, because `self.conversation_history`
is updated in place before a later statement raises. -/
def execToolLoop (api : LLMApi) (hist : List Msg) :
    List ToolCall → Except (List Msg) (List Msg)
  | [] => .ok hist
  | tc :: rest =>
    match api.jsonLoads tc.argumentsJson with
    | .error _ => .error hist
    | .ok args =>
        execToolLoop api (hist ++ [⟨"tool", api.execTool tc.name args⟩]) rest

/-- The body of the `try` block of `process_input` (lines 388-454).
Returns the reply text and the final history, or — when any step raises —
`Except.error` with the history as mutated up to the raise. -/
def processBody (api : LLMApi) (bs : BrainState) (user_input : String) :
    Except (List Msg) (String × List Msg) :=
  let hist1 := bs.conversation_history ++ [⟨"user", user_input⟩]
  let hist2 := truncateHistory hist1 bs.max_history
  match api.firstCall hist2 with
  | .error _ => .error hist2
  | .ok response_message =>
    match response_message.tool_calls with
    | [] =>
      let response_text := response_message.content
      .ok (response_text, hist2 ++ [⟨"assistant", response_text⟩])
    | tc :: tcs =>
      let hist3 := hist2 ++ [⟨"assistant", response_message.content⟩]
      match execToolLoop api hist3 (tc :: tcs) with
      | .error h => .error h
      | .ok hist4 =>
        match api.secondCall hist4 with
        | .error _ => .error hist4
        | .ok response_text =>
            .ok (response_text, hist4 ++ [⟨"assistant", response_text⟩])

/-- Embedding of `AgentBrain.process_input`: run the `try` body; on any exception return
the fixed apology.  Result: the returned reply, the new brain state, and
the argument passed to `stream_callback` when it was called (`none` when
an exception skipped it). -/
def process_input (api : LLMApi) (bs : BrainState) (user_input : String) :
    String × BrainState × Option String :=
  match processBody api bs user_input with
  | .ok (response_text, hist) =>
      (response_text, { bs with conversation_history := hist },
        some response_text)
  | .error hist =>
      (apologyReply, { bs with conversation_history := hist }, none)

end AgentBrain

/-! ## `VoiceAgent` controller (main.py) -/

namespace VoiceAgent

/-- The two recognized-text callbacks a `VoiceAgent` can arm on the
speech-to-text service. -/
inductive Cb
  | onWakeWordDetected
  | onSpeechRecognized
deriving DecidableEq, Repr

/-- Deferred actions scheduled through `QTimer.singleShot`. -/
inductive Deferred
  | activateListening
  | performShutdown
deriving DecidableEq, Repr

/-- Externally visible effects of the controller: calls on the STT and TTS
collaborators, Qt timer operations, cross-thread signal emissions, status
updates, and planner invocations. -/
inductive Effect
  | sttStopListening
  | sttStartListening (cb : Cb)
  | ttsSpeak (text : String)
  | ttsStopSpeaking
  | ttsStop
  | restartTimerStop
  | restartTimerStart (ms : Nat)
  | singleShot (ms : Nat) (act : Deferred)
  | statusChanged (msg : String)
  | plannerCall (text : String)
  | emitActivateSignal
  | emitSpeakingSignal (b : Bool)
  | appQuit
deriving DecidableEq, Repr

/-- A raised Python exception. -/
inductive PyError
  | attributeError (cls attr : String)
deriving DecidableEq, Repr

/-- The mutable flags of a `VoiceAgent` instance, plus the owned
`AgentBrain` state. -/
structure VoiceState where
  is_listening : Bool
  auto_listen : Bool
  is_processing : Bool
  wake_word_mode : Bool
  current_response : String
  brain : AgentBrain.BrainState
deriving DecidableEq, Repr

/-- The value of `self.assistant_name`. -/
def assistant_name : String := "Surya"

/-- The status string used in wake-word mode
(`f"Say \x27Hello \x7bself.assistant_name\x7d\x27 to activate"`). -/
def wakePrompt : String :=
  "Say \x27Hello " ++ assistant_name ++ "\x27 to activate"

/-- Embedding of `VoiceAgent.exit_application`: emit the shutdown status, speak the
goodbye message, and schedule `perform_shutdown` 3000 ms later.  The
controller flags are not touched. -/
def exit_application (s : VoiceState) : VoiceState × List Effect :=
  (s, [.statusChanged "Shutting down...",
       .ttsSpeak "Goodbye! Have a great day!",
       .singleShot 3000 .performShutdown])

/-- Embedding of `VoiceAgent.on_speech_recognized` (lines 207-239): drop the event when
`is_processing` is set; otherwise take the exit path when the text holds an
exit keyword; otherwise mark processing, stop transcription, call the
planner synchronously, and speak its reply. -/
def on_speech_recognized (api : AgentBrain.LLMApi) (text : String)
    (s : VoiceState) : VoiceState × List Effect :=
  if s.is_processing then (s, [])
  else if check_exit_keywords text then exit_application s
  else
    let s1 := { s with is_processing := true, is_listening := false }
    let r := AgentBrain.process_input api s1.brain text
    let s2 := { s1 with brain := r.2.1, current_response := (r.2.2).getD "" }
    (s2, [.sttStopListening, .statusChanged "Thinking...", .ttsStopSpeaking,
          .plannerCall text, .statusChanged "Speaking...", .ttsSpeak r.1])

/-- Deliver a sequence of recognized-text events to `on_speech_recognized`
one after the other, concatenating the effect traces. -/
def runEvents (api : AgentBrain.LLMApi) (s : VoiceState) :
    List String → VoiceState × List Effect
  | [] => (s, [])
  | t :: ts =>
    let r1 := on_speech_recognized api t s
    let r2 := runEvents api r1.1 ts
    (r2.1, r1.2 ++ r2.2)

/-- Embedding of `VoiceAgent.on_wake_word_detected` (lines 182-205): on a wake word,
stop transcription, clear `is_listening`, switch out of wake-word mode,
speak the confirmation, and emit `activate_signal` (the thread-safe hand-off
to `delayed_activate_listening`). -/
def on_wake_word_detected (text : String) (s : VoiceState) :
    VoiceState × List Effect :=
  if check_wake_word text then
    let s1 := { s with is_listening := false, wake_word_mode := false, auto_listen := true, is_processing := false }
    (s1, [.sttStopListening, .statusChanged "Activating...",
          .ttsSpeak "Yes, I\x27m listening", .emitActivateSignal])
  else (s, [])

/-- Embedding of `VoiceAgent.delayed_activate_listening` (lines 85-89): a slot run on the
main thread; schedules `activate_listening` 2500 ms later. -/
def delayed_activate_listening (s : VoiceState) : VoiceState × List Effect :=
  (s, [.singleShot 2500 .activateListening])

/-- Embedding of `VoiceAgent.activate_listening` (lines 91-114): stop transcription for a
clean state, set the active-listening flags, and re-arm transcription with
the command callback `on_speech_recognized`. -/
def activate_listening (s : VoiceState) : VoiceState × List Effect :=
  let s1 := { s with is_listening := true, wake_word_mode := false, auto_listen := true, is_processing := false }
  (s1, [.sttStopListening, .statusChanged "Listening...",
        .sttStartListening .onSpeechRecognized])

/-- Embedding of `VoiceAgent.start_wake_word_listening` (lines 71-83). -/
def start_wake_word_listening (s : VoiceState) : VoiceState × List Effect :=
  if s.is_listening then (s, [])
  else
    let s1 := { s with is_listening := true, wake_word_mode := true }
    (s1, [.statusChanged wakePrompt, .sttStartListening .onWakeWordDetected])

/-- Embedding of `VoiceAgent.start_listening` (lines 116-130). -/
def start_listening (s : VoiceState) : VoiceState × List Effect :=
  if s.is_listening && !s.wake_word_mode then (s, [])
  else
    let s1 := { s with is_listening := true, wake_word_mode := false, auto_listen := true }
    (s1, [.sttStopListening, .statusChanged "Listening...",
          .sttStartListening .onSpeechRecognized])

/-- Embedding of `VoiceAgent.stop_listening` (lines 132-149): return at once unless
listening; otherwise stop the restart timer, clear the flags, stop
transcription — and then evaluate `self.tts.stop()`.  `TextToSpeech`
defines no method named `stop`, so attribute lookup raises
`AttributeError` there; the status updates of lines 146-149 are never
reached.  The other branch records what the call would do if the method
existed. -/
def stop_listening (s : VoiceState) : VoiceState × List Effect × Option PyError :=
  if !s.is_listening then (s, [], none)
  else
    let s1 := { s with is_listening := false, auto_listen := false }
    if TextToSpeech.methodNames.contains "stop" then
      (s1, [.restartTimerStop, .sttStopListening, .ttsStop,
            .statusChanged (if s1.wake_word_mode then wakePrompt else "Stopped")],
       none)
    else
      (s1, [.restartTimerStop, .sttStopListening],
       some (.attributeError "TextToSpeech" "stop"))

/-- Embedding of `VoiceAgent.on_speaking_changed` (lines 246-260): the slot connected to
`speaking_signal`.  On start-of-speech it only updates the status; on
end-of-speech it clears `is_processing` and, when auto-listen applies,
arms the 500 ms restart timer. -/
def on_speaking_changed (is_speaking : Bool) (s : VoiceState) :
    VoiceState × List Effect :=
  if is_speaking then (s, [.statusChanged "Speaking..."])
  else
    let s1 := { s with is_processing := false }
    if s1.auto_listen && !s1.is_listening then
      (s1, [.restartTimerStart 500])
    else if s1.wake_word_mode then
      (s1, [.statusChanged wakePrompt])
    else
      (s1, [.statusChanged "Ready"])

/-- Embedding of `VoiceAgent.auto_restart_listening` (lines 242-244). -/
def auto_restart_listening (s : VoiceState) : VoiceState × List Effect :=
  if s.auto_listen && !s.is_listening then start_listening s else (s, [])

/-! ### Thread structure (speech_to_text.py, text_to_speech.py, main.py) -/

/-- The OS threads relevant to the controller. -/
inductive ExecCtx
  | mainThread
  | sttProcessingThread
  | ttsWorkerThread
deriving DecidableEq, Repr

/-- The execution context in which `SpeechToText` delivers its
recognized-text callbacks: the `process_audio` daemon thread started in
`SpeechToText.start_listening` (speech_to_text.py lines 46-65), so both
`on_wake_word_detected` and `on_speech_recognized` run there. -/
def sttCallbackCtx : ExecCtx := .sttProcessingThread

/-- The execution context in which `TextToSpeech` invokes
`speaking_callback`: its worker thread (text_to_speech.py lines 26-66). -/
def ttsCallbackCtx : ExecCtx := .ttsWorkerThread

/-- The function `VoiceAgent` registers as the TTS speaking callback is
`self.speaking_signal.emit` (main.py line 44): on the worker thread it only
emits a cross-thread Qt signal and mutates no controller state; the
connected slot `on_speaking_changed` then runs on the main thread. -/
def speakingCallbackBody (b : Bool) (s : VoiceState) : VoiceState × List Effect :=
  (s, [.emitSpeakingSignal b])

end VoiceAgent

/-! ## Concrete fixtures for witnesses and counterexamples -/

/-- A concrete API oracle whose first OpenAI call always raises
(e.g. the network is unreachable). -/
def apiDown : AgentBrain.LLMApi :=
  { firstCall := fun _ => .error "APIConnectionError",
    secondCall := fun _ => .error "APIConnectionError",
    jsonLoads := fun s => .ok s,
    execTool := fun _ _ => "{}" }

/-- A concrete API oracle answering every prompt directly, no tools. -/
def apiEcho : AgentBrain.LLMApi :=
  { firstCall := fun _ => .ok ⟨"It is 3 pm", []⟩,
    secondCall := fun _ => .ok "It is 3 pm",
    jsonLoads := fun s => .ok s,
    execTool := fun _ _ => "{}" }

/-- A brain state as after `AgentBrain.__init__`: the system message plus
`max_history = 20`. -/
def brain0 : AgentBrain.BrainState :=
  { conversation_history := [⟨"system", "You are Surya"⟩], max_history := 20 }

/-- Active-listening controller state (after `activate_listening`). -/
def sActive : VoiceAgent.VoiceState :=
  { is_listening := true, auto_listen := true, is_processing := false,
    wake_word_mode := false, current_response := "", brain := brain0 }

/-- Controller state while an utterance is in flight (`is_processing`). -/
def sBusy : VoiceAgent.VoiceState :=
  { sActive with is_processing := true, is_listening := false }

/-- Wake-word-only controller state (after `start_wake_word_listening`). -/
def sWake : VoiceAgent.VoiceState :=
  { is_listening := true, auto_listen := false, is_processing := false,
    wake_word_mode := true, current_response := "", brain := brain0 }

/-! ## Correctness of the substring model -/

theorem strHasPre_iff (n h : List Char) : strHasPre n h = true ↔ n <+: h := by
  induction n generalizing h with
  | nil => simp [strHasPre]
  | cons a as ih =>
    cases h with
    | nil => simp [strHasPre]
    | cons b bs =>
      simp only [strHasPre, Bool.and_eq_true, beq_iff_eq, ih,
        List.cons_prefix_cons]

theorem subStr_iff (n h : List Char) : subStr n h = true ↔ n <:+: h := by
  induction h with
  | nil =>
    simp [subStr, strHasPre_iff]
  | cons c t ih =>
    rw [subStr, Bool.or_eq_true, strHasPre_iff, ih, List.infix_cons_iff]

/-! ## Claim theorems -/

/-- Claim C7: for every input text, wake-word and exit-keyword detection
return true exactly when the lowercased text contains one of the static
phrases of the respective list as a contiguous substring — case-insensitive
substring containment, no fuzzy matching. -/
theorem C7_keyword_matching_is_substring_containment (text : String) :
    (VoiceAgent.check_wake_word text = true ↔
      ∃ w ∈ VoiceAgent.wake_words, w.toList <:+: (pyLower text).toList) ∧
    (VoiceAgent.check_exit_keywords text = true ↔
      ∃ w ∈ VoiceAgent.exit_keywords, w.toList <:+: (pyLower text).toList) := by
  constructor
  · simp only [VoiceAgent.check_wake_word, List.any_eq_true, subStr_iff]
  · simp only [VoiceAgent.check_exit_keywords, List.any_eq_true, subStr_iff]

/-- Claim C1: while `is_processing` is true, every recognized-text event
delivered to `on_speech_recognized` is discarded — any sequence of such
events leaves the controller state unchanged, produces no effects, and in
particular starts no planner call. -/
theorem C1_no_second_planner_call_while_processing
    (api : AgentBrain.LLMApi) (s : VoiceAgent.VoiceState) (ts : List String)
    (h : s.is_processing = true) :
    VoiceAgent.runEvents api s ts = (s, []) ∧
    ∀ t, VoiceAgent.Effect.plannerCall t ∉ (VoiceAgent.runEvents api s ts).2 := by
  have hrun : VoiceAgent.runEvents api s ts = (s, []) := by
    induction ts with
    | nil => rfl
    | cons t ts ih =>
      rw [VoiceAgent.runEvents]
      rw [VoiceAgent.on_speech_recognized, if_pos h]
      simp [ih]
  exact ⟨hrun, by rw [hrun]; intro t ht; exact (List.not_mem_nil _ ht)⟩

/-- Witness for C1: a busy state discards the concrete events
`["hello", "open the file"]`. -/
theorem C1_witness :
    sBusy.is_processing = true ∧
    (VoiceAgent.runEvents apiDown sBusy ["hello", "open the file"] = (sBusy, []) ∧
     ∀ t, VoiceAgent.Effect.plannerCall t ∉
       (VoiceAgent.runEvents apiDown sBusy ["hello", "open the file"]).2) :=
  ⟨rfl, C1_no_second_planner_call_while_processing apiDown sBusy
    ["hello", "open the file"] rfl⟩

/-- The class `TextToSpeech` defines no method named `stop`. -/
theorem ttsNoStop : TextToSpeech.methodNames.contains "stop" = false := by
  decide

/-- The class `TextToSpeech` defines no method named `stop` (membership form). -/
theorem ttsNoStopMem : "stop" ∉ TextToSpeech.methodNames := by
  decide

/-- After any call of `stop_listening`, the flag `is_listening` is false. -/
theorem stop_listening_not_listening (s : VoiceAgent.VoiceState) :
    (VoiceAgent.stop_listening s).1.is_listening = false := by
  cases h : s.is_listening <;>
    simp [VoiceAgent.stop_listening, h, ttsNoStopMem]

/-- Claim C6: calling `stop_listening` twice in succession from any
controller state produces the same state and effects as calling it once —
the second call returns immediately (state unchanged, no effects, no
exception). -/
theorem C6_stop_listening_idempotent (s : VoiceAgent.VoiceState) :
    VoiceAgent.stop_listening (VoiceAgent.stop_listening s).1 =
      ((VoiceAgent.stop_listening s).1, [], none) := by
  have h := stop_listening_not_listening s
  rw [VoiceAgent.stop_listening, h]
  simp

/-- Counterexample to C2 as stated: the text "goodbye" contains an exit
keyword, yet when `is_processing` is true `on_speech_recognized` discards
the event — it returns the state unchanged with no effects, so the exit
path (`exit_application`) is not taken.  The `is_processing` guard runs
before the exit-keyword check. -/
theorem C2_counterexample :
    VoiceAgent.check_exit_keywords "goodbye" = true ∧
    sBusy.is_processing = true ∧
    VoiceAgent.on_speech_recognized apiDown "goodbye" sBusy = (sBusy, []) := by
  refine ⟨by decide, rfl, rfl⟩

/-- Claim C2 amended: in `on_speech_recognized` the exit-keyword check runs
after the `is_processing` guard; for a text containing an exit keyword the
exit path is taken exactly when `is_processing` is false at that moment. -/
theorem C2_exit_check_after_processing_guard
    (api : AgentBrain.LLMApi) (text : String) (s : VoiceAgent.VoiceState)
    (hp : s.is_processing = false)
    (he : VoiceAgent.check_exit_keywords text = true) :
    VoiceAgent.on_speech_recognized api text s = VoiceAgent.exit_application s := by
  rw [VoiceAgent.on_speech_recognized, hp, he]
  simp

/-- Witness for C2 amended: "goodbye" in the active (not processing) state
takes the exit path. -/
theorem C2_witness :
    sActive.is_processing = false ∧
    VoiceAgent.check_exit_keywords "goodbye" = true ∧
    VoiceAgent.on_speech_recognized apiDown "goodbye" sActive =
      VoiceAgent.exit_application sActive :=
  ⟨rfl, by decide,
   C2_exit_check_after_processing_guard apiDown "goodbye" sActive rfl (by decide)⟩

/-- Counterexample to C3 as stated: on the exit utterance "goodbye" in
active listening, the handler never stops transcription (no
`sttStopListening` effect and `is_listening` stays true), and a further
recognized text arriving before the scheduled shutdown still triggers a
planner call. -/
theorem C3_counterexample :
    VoiceAgent.check_exit_keywords "goodbye" = true ∧
    VoiceAgent.Effect.sttStopListening ∉
      (VoiceAgent.on_speech_recognized apiDown "goodbye" sActive).2 ∧
    (VoiceAgent.on_speech_recognized apiDown "goodbye" sActive).1.is_listening = true ∧
    VoiceAgent.Effect.plannerCall "what time is it" ∈
      (VoiceAgent.runEvents apiDown sActive ["goodbye", "what time is it"]).2 := by
  refine ⟨by decide, by decide, rfl, by decide⟩

/-- Claim C3 amended: an exit-keyword utterance recognized in active
listening (with `is_processing` false) leaves the state unchanged and
produces exactly the effects: one shutdown status, exactly one spoken
goodbye, and the scheduling of process termination 3000 ms later; that
handler invocation performs no planner call — but transcription is not
stopped, and it remains possible for recognized text arriving before the
scheduled shutdown to start a planner call. -/
theorem C3_exit_path_effects
    (api : AgentBrain.LLMApi) (text : String) (s : VoiceAgent.VoiceState)
    (hp : s.is_processing = false)
    (he : VoiceAgent.check_exit_keywords text = true) :
    (VoiceAgent.on_speech_recognized api text s).1 = s ∧
    (VoiceAgent.on_speech_recognized api text s).2 =
      [.statusChanged "Shutting down...",
       .ttsSpeak "Goodbye! Have a great day!",
       .singleShot 3000 .performShutdown] ∧
    (∀ t, VoiceAgent.Effect.plannerCall t ∉
      (VoiceAgent.on_speech_recognized api text s).2) ∧
    VoiceAgent.Effect.sttStopListening ∉
      (VoiceAgent.on_speech_recognized api text s).2 := by
  have h := C2_exit_check_after_processing_guard api text s hp he
  rw [h]
  refine ⟨rfl, rfl, ?_, ?_⟩
  · intro t ht
    simp [VoiceAgent.exit_application] at ht
  · intro ht
    simp [VoiceAgent.exit_application] at ht

/-- Witness for C3 amended, at the concrete exit utterance "goodbye". -/
theorem C3_witness :
    sActive.is_processing = false ∧
    VoiceAgent.check_exit_keywords "goodbye" = true ∧
    ((VoiceAgent.on_speech_recognized apiDown "goodbye" sActive).1 = sActive ∧
     (VoiceAgent.on_speech_recognized apiDown "goodbye" sActive).2 =
       [.statusChanged "Shutting down...",
        .ttsSpeak "Goodbye! Have a great day!",
        .singleShot 3000 .performShutdown] ∧
     (∀ t, VoiceAgent.Effect.plannerCall t ∉
       (VoiceAgent.on_speech_recognized apiDown "goodbye" sActive).2) ∧
     VoiceAgent.Effect.sttStopListening ∉
       (VoiceAgent.on_speech_recognized apiDown "goodbye" sActive).2) :=
  ⟨rfl, by decide, C3_exit_path_effects apiDown "goodbye" sActive rfl (by decide)⟩

/-- Claim C5 (code bug): `stop_listening` on a listening state cancels the
restart timer, clears the flags and stops transcription, but then raises
`AttributeError` at `self.tts.stop()` — `TextToSpeech` defines
`stop_speaking`, not `stop` — so the synthesis service is never stopped:
no TTS-stopping effect appears in the trace. -/
theorem C5_tts_stop_raises_attribute_error :
    TextToSpeech.methodNames.contains "stop" = false ∧
    VoiceAgent.stop_listening sActive =
      ({ sActive with is_listening := false, auto_listen := false },
       [.restartTimerStop, .sttStopListening],
       some (.attributeError "TextToSpeech" "stop")) ∧
    VoiceAgent.Effect.ttsStopSpeaking ∉ (VoiceAgent.stop_listening sActive).2.1 ∧
    VoiceAgent.Effect.ttsStop ∉ (VoiceAgent.stop_listening sActive).2.1 := by
  refine ⟨by decide, rfl, by decide, by decide⟩

/-- After the end-of-speech notification, `on_speaking_changed false`
always leaves `is_processing` cleared. -/
theorem on_speaking_changed_false_clears (s : VoiceAgent.VoiceState) :
    (VoiceAgent.on_speaking_changed false s).1.is_processing = false := by
  rw [VoiceAgent.on_speaking_changed]
  simp only [Bool.false_eq_true, if_false]
  split
  · rfl
  · split <;> rfl

/-- Claim C4: when the internal work of the planner raises,
`AgentBrain.process_input` returns the fixed apology string instead of
propagating, the recognized-text handler still produces the normal
effect sequence ending in the Speaking transition (status update plus
`tts.speak` of the apology, which the TTS queue accepts), and the
subsequent end-of-speech notification clears `is_processing` — the
controller is not stuck in Processing. -/
theorem C4_planner_failure_yields_apology_and_speaking
    (api : AgentBrain.LLMApi) (s : VoiceAgent.VoiceState) (text : String)
    (hist : List AgentBrain.Msg)
    (hp : s.is_processing = false)
    (hx : VoiceAgent.check_exit_keywords text = false)
    (herr : AgentBrain.processBody api s.brain text = .error hist) :
    (AgentBrain.process_input api s.brain text).1 = AgentBrain.apologyReply ∧
    (VoiceAgent.on_speech_recognized api text s).2 =
      [.sttStopListening, .statusChanged "Thinking...", .ttsStopSpeaking,
       .plannerCall text, .statusChanged "Speaking...",
       .ttsSpeak AgentBrain.apologyReply] ∧
    TextToSpeech.speak AgentBrain.apologyReply [] = [AgentBrain.apologyReply] ∧
    (VoiceAgent.on_speaking_changed false
      (VoiceAgent.on_speech_recognized api text s).1).1.is_processing = false := by
  refine ⟨?_, ?_, by decide, on_speaking_changed_false_clears _⟩
  · rw [AgentBrain.process_input, herr]
  · rw [VoiceAgent.on_speech_recognized, hp, hx]
    simp only [Bool.false_eq_true, if_false]
    have hb : ({ s with is_processing := true, is_listening := false } :
        VoiceAgent.VoiceState).brain = s.brain := rfl
    rw [AgentBrain.process_input, hb, herr]

/-- Witness for C4: with an API oracle whose first call raises, the input
"hello" in the active state yields the apology and the Speaking
transition. -/
theorem C4_witness :
    sActive.is_processing = false ∧
    VoiceAgent.check_exit_keywords "hello" = false ∧
    AgentBrain.processBody apiDown sActive.brain "hello" =
      .error [⟨"system", "You are Surya"⟩, ⟨"user", "hello"⟩] ∧
    ((AgentBrain.process_input apiDown sActive.brain "hello").1 =
        AgentBrain.apologyReply ∧
      (VoiceAgent.on_speech_recognized apiDown "hello" sActive).2 =
        [.sttStopListening, .statusChanged "Thinking...", .ttsStopSpeaking,
         .plannerCall "hello", .statusChanged "Speaking...",
         .ttsSpeak AgentBrain.apologyReply] ∧
      TextToSpeech.speak AgentBrain.apologyReply [] = [AgentBrain.apologyReply] ∧
      (VoiceAgent.on_speaking_changed false
        (VoiceAgent.on_speech_recognized apiDown "hello" sActive).1).1.is_processing
        = false) :=
  ⟨rfl, by decide, rfl,
    C4_planner_failure_yields_apology_and_speaking apiDown sActive "hello"
      [⟨"system", "You are Surya"⟩, ⟨"user", "hello"⟩] rfl (by decide) rfl⟩

/-- Counterexample to C8 as stated: after a wake word the handler leaves
`auto_listen` true and `is_listening` false, so when the spoken
confirmation finishes, `on_speaking_changed false` arms the 500 ms restart
timer, and its timeout (`auto_restart_listening`, which calls
`start_listening`) re-arms transcription with `on_speech_recognized` —
independent of, and with its 500 ms timer shorter than, the 2500 ms
debounce `singleShot`; transcription can therefore be re-armed before the
fixed debounce delay elapses. -/
theorem C8_counterexample :
    VoiceAgent.check_wake_word "hello surya" = true ∧
    (VoiceAgent.on_wake_word_detected "hello surya" sWake).1.auto_listen = true ∧
    (VoiceAgent.on_wake_word_detected "hello surya" sWake).1.is_listening = false ∧
    (VoiceAgent.on_speaking_changed false
        (VoiceAgent.on_wake_word_detected "hello surya" sWake).1).2 =
      [.restartTimerStart 500] ∧
    VoiceAgent.Effect.sttStartListening .onSpeechRecognized ∈
      (VoiceAgent.auto_restart_listening
        (VoiceAgent.on_speaking_changed false
          (VoiceAgent.on_wake_word_detected "hello surya" sWake).1).1).2 ∧
    (500 : Nat) < 2500 := by
  exact ⟨by decide, rfl, rfl, rfl, by decide, by decide⟩

/-- Claim C8 amended: on a wake word while in wake-word-only mode the
handler stops transcription, speaks the confirmation, and arms no
transcription callback itself; the marshaled wake-word continuation
re-arms transcription for commands only through the 2500 ms debounce
`singleShot` running `activate_listening`, which establishes the
active-listening state — but this deferral is not exclusive: once the
confirmation finishes speaking, the auto-listen restart path
(`on_speaking_changed false` arming the 500 ms restart timer whose timeout
runs `start_listening`) re-arms transcription without waiting for that
debounce delay. -/
theorem C8_activation_and_early_rearm
    (text : String) (s s2 s3 : VoiceAgent.VoiceState)
    (hw : VoiceAgent.check_wake_word text = true)
    (ha : s3.auto_listen = true) (hl : s3.is_listening = false) :
    (VoiceAgent.on_wake_word_detected text s).2 =
      [.sttStopListening, .statusChanged "Activating...",
       .ttsSpeak "Yes, I\x27m listening", .emitActivateSignal] ∧
    (∀ cb, VoiceAgent.Effect.sttStartListening cb ∉
      (VoiceAgent.on_wake_word_detected text s).2) ∧
    (VoiceAgent.delayed_activate_listening
        (VoiceAgent.on_wake_word_detected text s).1).2 =
      [.singleShot 2500 .activateListening] ∧
    (∀ cb, VoiceAgent.Effect.sttStartListening cb ∉
      (VoiceAgent.delayed_activate_listening
        (VoiceAgent.on_wake_word_detected text s).1).2) ∧
    ((VoiceAgent.activate_listening s2).1.is_listening = true ∧
     (VoiceAgent.activate_listening s2).1.wake_word_mode = false ∧
     (VoiceAgent.activate_listening s2).1.is_processing = false ∧
     VoiceAgent.Effect.sttStartListening .onSpeechRecognized ∈
       (VoiceAgent.activate_listening s2).2) ∧
    ((VoiceAgent.on_speaking_changed false s3).2 = [.restartTimerStart 500] ∧
     VoiceAgent.Effect.sttStartListening .onSpeechRecognized ∈
       (VoiceAgent.auto_restart_listening
         (VoiceAgent.on_speaking_changed false s3).1).2) := by
  have hspk : VoiceAgent.on_speaking_changed false s3 =
      ({ s3 with is_processing := false }, [.restartTimerStart 500]) := by
    rw [VoiceAgent.on_speaking_changed]
    simp [ha, hl]
  refine ⟨?_, ?_, ?_, ?_, ?_, ?_, ?_⟩
  · rw [VoiceAgent.on_wake_word_detected, hw]
    rfl
  · rw [VoiceAgent.on_wake_word_detected, hw]
    intro cb hcb
    simp at hcb
  · rfl
  · intro cb hcb
    simp [VoiceAgent.delayed_activate_listening] at hcb
  · refine ⟨rfl, rfl, rfl, ?_⟩
    simp [VoiceAgent.activate_listening]
  · rw [hspk]
  · rw [hspk]
    rw [VoiceAgent.auto_restart_listening]
    simp only [ha, hl]
    rw [VoiceAgent.start_listening]
    simp [hl]

/-- Witness for C8 amended at the concrete utterance "hello surya" from
the wake-word-only state, with the early-re-arm premises discharged at the
post-wake-word state itself. -/
theorem C8_amended_witness :
    VoiceAgent.check_wake_word "hello surya" = true ∧
    (VoiceAgent.on_wake_word_detected "hello surya" sWake).1.auto_listen = true ∧
    (VoiceAgent.on_wake_word_detected "hello surya" sWake).1.is_listening = false ∧
    ((VoiceAgent.on_wake_word_detected "hello surya" sWake).2 =
      [.sttStopListening, .statusChanged "Activating...",
       .ttsSpeak "Yes, I\x27m listening", .emitActivateSignal] ∧
    (∀ cb, VoiceAgent.Effect.sttStartListening cb ∉
      (VoiceAgent.on_wake_word_detected "hello surya" sWake).2) ∧
    (VoiceAgent.delayed_activate_listening
        (VoiceAgent.on_wake_word_detected "hello surya" sWake).1).2 =
      [.singleShot 2500 .activateListening] ∧
    (∀ cb, VoiceAgent.Effect.sttStartListening cb ∉
      (VoiceAgent.delayed_activate_listening
        (VoiceAgent.on_wake_word_detected "hello surya" sWake).1).2) ∧
    ((VoiceAgent.activate_listening sWake).1.is_listening = true ∧
     (VoiceAgent.activate_listening sWake).1.wake_word_mode = false ∧
     (VoiceAgent.activate_listening sWake).1.is_processing = false ∧
     VoiceAgent.Effect.sttStartListening .onSpeechRecognized ∈
       (VoiceAgent.activate_listening sWake).2) ∧
    ((VoiceAgent.on_speaking_changed false
        (VoiceAgent.on_wake_word_detected "hello surya" sWake).1).2 =
      [.restartTimerStart 500] ∧
     VoiceAgent.Effect.sttStartListening .onSpeechRecognized ∈
       (VoiceAgent.auto_restart_listening
         (VoiceAgent.on_speaking_changed false
           (VoiceAgent.on_wake_word_detected "hello surya" sWake).1).1).2)) :=
  ⟨by decide, rfl, rfl,
    C8_activation_and_early_rearm "hello surya" sWake sWake
      (VoiceAgent.on_wake_word_detected "hello surya" sWake).1
      (by decide) rfl rfl⟩

/-- Counterexample to C9 as stated: the recognized-text callbacks are
invoked on the transcription background thread (`process_audio`,
speech_to_text.py lines 46-65), not on the controller thread, and both
`on_wake_word_detected` and `on_speech_recognized` mutate controller state
directly in that context instead of marshaling first. -/
theorem C9_counterexample :
    VoiceAgent.sttCallbackCtx = .sttProcessingThread ∧
    VoiceAgent.sttCallbackCtx ≠ .mainThread ∧
    (VoiceAgent.on_wake_word_detected "surya" sWake).1 ≠ sWake ∧
    (VoiceAgent.on_speech_recognized apiDown "hi there" sActive).1 ≠ sActive := by
  exact ⟨rfl, by decide, by decide, by decide⟩

/-- Claim C9 amended: only the synthesis speaking-state path is marshaled —
the TTS worker invokes `speaking_signal.emit`, which mutates nothing and
only raises a cross-thread Qt signal whose slot runs on the main thread —
while the transcription callbacks `on_wake_word_detected` and
`on_speech_recognized` run on the transcription background thread and
mutate controller state directly there. -/
theorem C9_only_speaking_path_is_marshaled
    (b : Bool) (s : VoiceAgent.VoiceState) :
    (VoiceAgent.speakingCallbackBody b s).1 = s ∧
    (VoiceAgent.speakingCallbackBody b s).2 = [.emitSpeakingSignal b] ∧
    VoiceAgent.ttsCallbackCtx = .ttsWorkerThread ∧
    VoiceAgent.sttCallbackCtx = .sttProcessingThread ∧
    (∃ s0, (VoiceAgent.on_wake_word_detected "surya" s0).1 ≠ s0) ∧
    (∃ s0, (VoiceAgent.on_speech_recognized apiDown "hi there" s0).1 ≠ s0) :=
  ⟨rfl, rfl, rfl, rfl, ⟨sWake, by decide⟩, ⟨sActive, by decide⟩⟩

/-- All-whitespace character lists are fully dropped by `dropWhile`. -/
theorem dropWhile_eq_nil_of_all (p : Char → Bool) (l : List Char)
    (h : ∀ c ∈ l, p c = true) : l.dropWhile p = [] := by
  induction l with
  | nil => rfl
  | cons c t ih =>
    rw [List.dropWhile_cons, if_pos (h c (List.mem_cons_self c t))]
    exact ih (fun x hx => h x (List.mem_cons_of_mem c hx))

/-- The result of `text.strip()` on an all-whitespace string is empty. -/
theorem pyStrip_all_space (text : String)
    (h : ∀ c ∈ text.toList, pyIsSpace c = true) : pyStrip text = "" := by
  rw [pyStrip, dropWhile_eq_nil_of_all _ _ h]
  rfl

/-- Claim C10: `TextToSpeech.speak` on an empty or all-whitespace string
enqueues nothing — the speech queue is unchanged, so the worker produces
no audio and fires no speaking-state callback for that call. -/
theorem C10_speak_ignores_whitespace (text : String) (q : List String)
    (h : ∀ c ∈ text.toList, pyIsSpace c = true) :
    TextToSpeech.speak text q = q ∧
    TextToSpeech.workerEvents (TextToSpeech.speak text q) =
      TextToSpeech.workerEvents q := by
  have hs : pyStrip text = "" := pyStrip_all_space text h
  constructor <;> simp [TextToSpeech.speak, hs]

/-- Witness for C10: speaking a whitespace-only string with a non-empty
queue changes nothing. -/
theorem C10_witness :
    (∀ c ∈ ("  \t").toList, pyIsSpace c = true) ∧
    (TextToSpeech.speak "  \t" ["hello"] = ["hello"] ∧
     TextToSpeech.workerEvents (TextToSpeech.speak "  \t" ["hello"]) =
       TextToSpeech.workerEvents ["hello"]) :=
  ⟨by decide, C10_speak_ignores_whitespace "  \t" ["hello"] (by decide)⟩
